import Mathlib

/-!
Verification of the Flossy web front-end (src/flossy_web/app.js and
src/flossy_web/firebase-messaging-sw.js) via a shallow embedding of its
event handlers in Lean 4.
-/

namespace Flossy

/-! ## Chat Widget Controller (app.js, sendBtn click listener) -/

/-- Authors of transcript entries: `user` and `flossy` (the agent),
matching the `sender` argument of `appendMessage`. -/
inductive Sender
  | user
  | flossy
  deriving DecidableEq

/-- A transcript entry as built by `appendMessage(sender, text)`. -/
structure ChatMessage where
  sender : Sender
  text : String
  deriving DecidableEq

/-- The body of an HTTP response as seen by the handler: either
`res.json()` rejects (`malformed`), or it parses to an object whose
`reply` field is absent (`json none`) or present with a string value
(`json (some s)`). -/
inductive ChatBody
  | malformed
  | json (reply : Option String)
  deriving DecidableEq

/-- Outcome of `fetch("/chat", ...)`: the promise rejects
(`networkError`), or it resolves with a response carrying an HTTP
status code and a body.  `fetch` resolves for every HTTP status,
including non-2xx ones. -/
inductive ChatResponse
  | networkError
  | response (status : Nat) (body : ChatBody)
  deriving DecidableEq

/-- The placeholder used in `data.reply || "Hmm... I’m thinking!"`. -/
def placeholderText : String := "Hmm... I’m thinking!"

/-- The message appended in the `catch` branch of the send handler. -/
def errorText : String := "⚠️ Error connecting to server"

/-- JavaScript `String.prototype.trim`: strip whitespace from both
ends of the string. -/
def jsTrim (s : String) : String :=
  ⟨((s.data.dropWhile Char.isWhitespace).reverse.dropWhile Char.isWhitespace).reverse⟩

/-- JavaScript `x || d` on an optional string: `undefined` and the
empty string are falsy, so both fall back to the default. -/
def strOr (x : Option String) (d : String) : String :=
  match x with
  | some s => if s = "" then d else s
  | none => d

/-- Everything observable one send action does: the transcript entries
appended (in order) and the number of `/chat` requests issued. -/
structure SendResult where
  appended : List ChatMessage
  requestCount : Nat
  deriving DecidableEq

/-- The `sendBtn` click listener of app.js.  It trims the input; if the
result is empty it returns at once.  Otherwise it appends the user
entry, issues exactly one POST to `/chat`, and appends either the reply
(with the placeholder substituted for an absent or falsy `reply` field)
or, when the fetch rejects or `res.json()` rejects, the fixed error
message.  The HTTP status of a resolved response is never inspected. -/
def send (input : String) (resp : ChatResponse) : SendResult :=
  let text := jsTrim input
  if text = "" then { appended := [], requestCount := 0 }
  else
    match resp with
    | .networkError =>
        { appended := [⟨.user, text⟩, ⟨.flossy, errorText⟩], requestCount := 1 }
    | .response _ body =>
        match body with
        | .malformed =>
            { appended := [⟨.user, text⟩, ⟨.flossy, errorText⟩], requestCount := 1 }
        | .json r =>
            { appended := [⟨.user, text⟩, ⟨.flossy, strOr r placeholderText⟩],
              requestCount := 1 }

/-- A response is handled by the `catch` branch exactly when the fetch
rejects or its body fails to parse as JSON; a non-2xx status alone does
not make the handler take the error path. -/
def isChatFailure (resp : ChatResponse) : Bool :=
  match resp with
  | .networkError => true
  | .response _ .malformed => true
  | .response _ (.json _) => false

/-! ## Call Session Controller (app.js, callBtn click listener) -/

/-- WebSocket ready states, as in the DOM `WebSocket.readyState`. -/
inductive ReadyState
  | connecting
  | opened
  | closing
  | closed
  deriving DecidableEq

/-- The button label while no call is up ("📞"). -/
def idleLabel : String := "📞"

/-- The button label set by the `onopen` handler ("🔴 End"). -/
def endLabel : String := "🔴 End"

/-- State of the Call Session Controller: every WebSocket ever created,
newest first (the head, when present, is the one the global `ws`
variable points to), plus the call button's current label. -/
structure CallState where
  conns : List ReadyState
  label : String
  deriving DecidableEq

/-- Page-load state: no socket created yet, idle label. -/
def initCall : CallState := { conns := [], label := idleLabel }

/-- External events driving the controller: a click on the call
button, and the `open`/`close` lifecycle events of the socket created
`i` clicks-ago (index into `conns`, 0 = the one `ws` points to). -/
inductive CallEvent
  | click
  | openEvt (i : Nat)
  | closeEvt (i : Nat)
  deriving DecidableEq

/-- One step of the controller, from the callBtn click listener:

* click: if `ws` exists and `ws.readyState === WebSocket.OPEN`, call
  `ws.close()` (the socket enters CLOSING) and set the label to "📞";
  otherwise assign `ws = new WebSocket(wsUrl)` — a fresh CONNECTING
  socket that shadows whatever `ws` pointed to before.
* `open` fires on a CONNECTING socket: it becomes OPEN and its
  `onopen` handler sets the label to "🔴 End".
* `close` fires on any not-yet-closed socket: it becomes CLOSED and
  its `onclose` handler sets the label to "📞".  Handlers stay
  attached to their own socket, so these fire even for sockets that
  `ws` no longer points to. -/
def stepCall (s : CallState) (e : CallEvent) : CallState :=
  match e with
  | .click =>
      match s.conns with
      | .opened :: rest => { conns := .closing :: rest, label := idleLabel }
      | _ => { s with conns := .connecting :: s.conns }
  | .openEvt i =>
      match s.conns[i]? with
      | some .connecting => { conns := s.conns.set i .opened, label := endLabel }
      | _ => s
  | .closeEvt i =>
      match s.conns[i]? with
      | some .connecting => { conns := s.conns.set i .closed, label := idleLabel }
      | some .opened => { conns := s.conns.set i .closed, label := idleLabel }
      | some .closing => { conns := s.conns.set i .closed, label := idleLabel }
      | _ => s

/-- Run a sequence of events from the page-load state. -/
def runCall (es : List CallEvent) : CallState :=
  es.foldl stepCall initCall

/-- Number of non-closed (active) connections in a state. -/
def activeCount (s : CallState) : Nat :=
  s.conns.countP (fun c => decide (c ≠ .closed))

/-- The click handler opens a new socket whenever the tracked one is
not OPEN; a click is "quiescent" when the tracked socket is neither
mid-handshake nor mid-teardown, i.e. the page has no socket yet or the
tracked socket is fully open or fully closed. -/
def quiescent (s : CallState) : Bool :=
  match s.conns with
  | [] => true
  | .opened :: _ => true
  | .closed :: _ => true
  | _ => false

/-- A trace is click-quiescent when every click in it happens in a
quiescent state. -/
def clickQuiescent : CallState → List CallEvent → Bool
  | _, [] => true
  | s, e :: es =>
      (match e with
       | .click => quiescent s
       | _ => true) && clickQuiescent (stepCall s e) es

/-- One complete toggle action, per §4.1 of the spec: a click together
with the lifecycle event it provokes — the `open` of the socket the
click created, or the `close` completing the `ws.close()` the click
issued. -/
def toggle (s : CallState) : CallState :=
  let s1 := stepCall s .click
  match s1.conns.head? with
  | some .connecting => stepCall s1 (.openEvt 0)
  | some .closing => stepCall s1 (.closeEvt 0)
  | _ => s1

/-- State after `n` complete toggle actions from page load. -/
def toggles : Nat → CallState
  | 0 => initCall
  | n + 1 => toggle (toggles n)

/-- Whether the tracked connection (the one `ws` points to) is open. -/
def trackedOpen (s : CallState) : Bool :=
  s.conns.head? = some .opened

/-- Every socket other than the tracked one is closed. -/
def TailClosed (s : CallState) : Prop :=
  ∀ c ∈ s.conns.tail, c = ReadyState.closed

/-- The controller is between calls: idle label and every socket ever
created fully closed. -/
def CallIdle (s : CallState) : Prop :=
  s.label = idleLabel ∧ ∀ c ∈ s.conns, c = ReadyState.closed

/-- A call is up: "end call" label, the tracked socket open, every
older socket closed. -/
def CallLive (s : CallState) : Prop :=
  s.label = endLabel ∧ s.conns.head? = some ReadyState.opened ∧ TailClosed s

/-! ## Background worker (firebase-messaging-sw.js) -/

/-- The structured `notification` field of a push payload: `none`
models an absent property (`undefined` in JS). -/
structure NotifFields where
  title : Option String
  body : Option String
  icon : Option String
  deriving DecidableEq

/-- The raw `data` field of a push payload. -/
structure DataFields where
  title : Option String
  body : Option String
  icon : Option String
  badge : Option String
  url : Option String
  deriving DecidableEq

/-- A push payload as consumed by `onBackgroundMessage`: both fields
optional. -/
structure PushPayload where
  notifField : Option NotifFields
  dataField : Option DataFields
  deriving DecidableEq

/-- What `showNotification(notificationTitle, notificationOptions)`
receives: the title plus the options object built by the handler. -/
structure ShownNotification where
  title : String
  body : String
  icon : String
  badge : String
  url : String
  deriving DecidableEq

/-- Default title used when neither field supplies one. -/
def defaultTitle : String := "FlossyAI Notification"

/-- Default body used when neither field supplies one. -/
def defaultBody : String := "You have a new message from FlossyAI!"

/-- The `onBackgroundMessage` handler: with
`notification = payload.notification || {}` and
`data = payload.data || {}`, each displayed attribute is
`notification.x || data.x || default` (JS `||`, so absent and empty
strings both fall through), and the stored click-through URL is
`data.url || "/"`. -/
def onBackgroundMessage (p : PushPayload) : ShownNotification :=
  let n := p.notifField.getD ⟨none, none, none⟩
  let d := p.dataField.getD ⟨none, none, none, none, none⟩
  { title := strOr n.title (strOr d.title defaultTitle)
    body := strOr n.body (strOr d.body defaultBody)
    icon := strOr n.icon (strOr d.icon "/static/flossy-icon.png")
    badge := strOr d.badge "/static/flossy-badge.png"
    url := strOr d.url "/" }

/-- A window client as seen by the `notificationclick` listener: only
whether `"focus" in client` holds matters to the handler. -/
structure WClient where
  focusable : Bool
  deriving DecidableEq

/-- The observable outcome of the `notificationclick` listener. -/
inductive ClickAction
  /-- An existing client was focused; `navigatedTo` is the URL passed
  to `client.navigate`, when the guard let the navigation happen. -/
  | focusClient (idx : Nat) (navigatedTo : Option String)
  /-- `clients.openWindow(url)` was called. -/
  | openedWindow (url : String)
  /-- The handler fell through without focusing or opening anything. -/
  | noAction
  deriving DecidableEq

/-- JS truthiness of the `event.notification.data &&
event.notification.data.url` guard, for an optional URL string. -/
def urlTruthy (u : Option String) : Bool :=
  match u with
  | some s => s ≠ ""
  | none => false

/-- The `notificationclick` listener: walk the matched window clients;
at the first one exposing `focus`, navigate it to `data.url` (when the
guard passes) and focus it, returning immediately.  If no client takes
the click, call `clients.openWindow(data.url)` when that API exists
and the guard passes; otherwise do nothing. -/
def notificationClick (clientList : List WClient) (openWindowAvail : Bool)
    (dataUrl : Option String) : ClickAction :=
  match clientList.findIdx? (fun c => c.focusable) with
  | some i =>
      ClickAction.focusClient i (if urlTruthy dataUrl then dataUrl else none)
  | none =>
      if openWindowAvail && urlTruthy dataUrl then
        ClickAction.openedWindow (dataUrl.getD "/")
      else
        ClickAction.noAction

/-- The URL a click action navigates to, when it navigates at all. -/
def actionUrl (a : ClickAction) : Option String :=
  match a with
  | .focusClient _ u => u
  | .openedWindow u => some u
  | .noAction => none

/-- Clicking the notification shown for payload `p`: the stored
`data.url` (always set by `onBackgroundMessage`) is fed to the
`notificationclick` listener. -/
def clickShown (p : PushPayload) (clientList : List WClient)
    (openWindowAvail : Bool) : ClickAction :=
  notificationClick clientList openWindowAvail (some (onBackgroundMessage p).url)

/-- The `data.url` the push payload itself supplied, if any. -/
def suppliedUrl (p : PushPayload) : Option String :=
  p.dataField.bind (fun d => d.url)

/-! ## Push Registration Controller (app.js, notify-btn click listener) -/

/-- Result of `Notification.requestPermission()`. -/
inductive Permission
  | granted
  | denied
  | defaultPerm
  deriving DecidableEq

/-- Result of `messaging.getToken()`: a token, or a rejection. -/
inductive TokenResult
  | ok (token : String)
  | err
  deriving DecidableEq

/-- Observable effects of the notify-btn handler. -/
inductive Effect
  | alert (msg : String)
  | consoleLog (msg : String)
  | consoleError (msg : String)
  deriving DecidableEq

/-- The notify-btn click listener: on granted permission it awaits
`getToken`, logs the token and alerts "Notifications enabled!"; on any
other permission it alerts the denial notice; a `getToken` rejection
lands in the `catch` block, which only calls `console.error`. -/
def requestEnable (perm : Permission) (tok : TokenResult) : List Effect :=
  match perm with
  | .granted =>
      match tok with
      | .ok t => [.consoleLog ("Notification token: " ++ t), .alert "Notifications enabled!"]
      | .err => [.consoleError "Error enabling notifications:"]
  | _ => [.alert "Permission denied for notifications."]

/-- Whether an effect list contains a user-visible message: of the
three channels the handler uses, only `alert` is shown to the user;
`console.log`/`console.error` go to the developer console. -/
def surfacedToUser (effs : List Effect) : Bool :=
  effs.any (fun e =>
    match e with
    | .alert _ => true
    | _ => false)

end Flossy

namespace Flossy

/-- Helper: a state with all non-tracked sockets closed has at most
one active socket. -/
theorem activeCount_le_one_of_tailClosed (s : CallState) (h : TailClosed s) :
    activeCount s ≤ 1 := by
  unfold activeCount
  match hc : s.conns with
  | [] => simp
  | c :: t =>
      have ht : t.countP (fun c => decide (c ≠ ReadyState.closed)) = 0 := by
        refine List.countP_eq_zero.mpr ?_
        intro a ha
        have : a = ReadyState.closed := by
          have := h a
          simp [TailClosed, hc] at this ⊢
          exact h a (by simp [hc, ha])
        simp [this]
      rw [List.countP_cons, ht]
      by_cases hcc : c = ReadyState.closed <;> simp [hcc]

/-- Helper: setting any position of an all-closed tail to closed keeps
the tail all-closed. -/
theorem tailClosed_set (l : List ReadyState) (i : Nat)
    (h : ∀ c ∈ l.tail, c = ReadyState.closed) :
    ∀ c ∈ (l.set i ReadyState.closed).tail, c = ReadyState.closed := by
  match l, i with
  | [], _ => simp
  | c :: t, 0 => simpa using h
  | c :: t, j + 1 =>
      simp only [List.set_cons_succ, List.tail_cons]
      intro a ha
      rcases List.mem_or_eq_of_mem_set ha with hmem | heq
      · exact h a (by simpa using hmem)
      · exact heq

/-- Helper: one step preserves `TailClosed`, provided a click only
happens in a quiescent state. -/
theorem tailClosed_step (s : CallState) (e : CallEvent) (h : TailClosed s)
    (hq : e = CallEvent.click → quiescent s = true) :
    TailClosed (stepCall s e) := by
  cases e with
  | click =>
      have hqq := hq rfl
      cases hc : s.conns with
      | nil =>
          intro a ha
          simp [stepCall, hc] at ha
      | cons c t =>
          cases c with
          | connecting => simp [quiescent, hc] at hqq
          | closing => simp [quiescent, hc] at hqq
          | opened =>
              intro a ha
              simp only [stepCall, hc, List.tail_cons] at ha
              exact h a (by rw [hc]; simpa using ha)
          | closed =>
              intro a ha
              simp only [stepCall, hc, List.tail_cons] at ha
              rcases List.mem_cons.mp ha with rfl | hmem
              · rfl
              · exact h a (by rw [hc]; simpa using hmem)
  | openEvt i =>
      cases hi : s.conns[i]? with
      | none =>
          intro a ha
          simp only [stepCall, hi] at ha
          exact h a ha
      | some st =>
          cases st with
          | connecting =>
              intro a ha
              simp only [stepCall, hi] at ha
              cases i with
              | zero =>
                  cases hc : s.conns with
                  | nil => rw [hc] at hi; simp at hi
                  | cons c t =>
                      rw [hc] at ha
                      simp only [List.set_cons_zero, List.tail_cons] at ha
                      exact h a (by rw [hc]; simpa using ha)
              | succ j =>
                  cases hc : s.conns with
                  | nil => rw [hc] at hi; simp at hi
                  | cons c t =>
                      rw [hc, List.getElem?_cons_succ] at hi
                      have hmem : ReadyState.connecting ∈ t := List.getElem?_mem hi
                      have hcl := h ReadyState.connecting (by rw [hc]; simpa using hmem)
                      simp at hcl
          | opened =>
              intro a ha
              simp only [stepCall, hi] at ha
              exact h a ha
          | closing =>
              intro a ha
              simp only [stepCall, hi] at ha
              exact h a ha
          | closed =>
              intro a ha
              simp only [stepCall, hi] at ha
              exact h a ha
  | closeEvt i =>
      cases hi : s.conns[i]? with
      | none =>
          intro a ha
          simp only [stepCall, hi] at ha
          exact h a ha
      | some st =>
          cases st with
          | connecting =>
              intro a ha
              simp only [stepCall, hi] at ha
              exact tailClosed_set s.conns i h a ha
          | opened =>
              intro a ha
              simp only [stepCall, hi] at ha
              exact tailClosed_set s.conns i h a ha
          | closing =>
              intro a ha
              simp only [stepCall, hi] at ha
              exact tailClosed_set s.conns i h a ha
          | closed =>
              intro a ha
              simp only [stepCall, hi] at ha
              exact h a ha

/-- Helper: `TailClosed` holds all along a click-quiescent trace. -/
theorem tailClosed_foldl (es : List CallEvent) (s : CallState)
    (h : TailClosed s) (hq : clickQuiescent s es = true) :
    TailClosed (es.foldl stepCall s) := by
  induction es generalizing s with
  | nil => simpa using h
  | cons e es ih =>
      simp only [clickQuiescent, Bool.and_eq_true] at hq
      refine ih (stepCall s e) (tailClosed_step s e h ?_) hq.2
      intro he
      subst he
      simpa using hq.1

/-- C1 counterexample: two clicks in a row — the second while the
first socket is still CONNECTING — leave two active (non-closed)
connections, because the handler only tests `readyState === OPEN`
before opening a new socket. -/
theorem C1_counterexample :
    activeCount (runCall [CallEvent.click, CallEvent.click]) = 2 ∧
    ¬ activeCount (runCall [CallEvent.click, CallEvent.click]) ≤ 1 := by
  decide

/-- C1 amended: along any sequence of clicks and lifecycle events in
which every click happens while the tracked socket is fully open or
fully closed (never mid-handshake or mid-teardown), at most one
connection is active at any time. -/
theorem C1_at_most_one_active (es : List CallEvent)
    (h : clickQuiescent initCall es = true) :
    activeCount (runCall es) ≤ 1 := by
  refine activeCount_le_one_of_tailClosed _ ?_
  exact tailClosed_foldl es initCall (by simp [TailClosed, initCall]) h

/-- Witness for C1 amended: a full call, a hang-up, and a redial. -/
theorem C1_at_most_one_active_witness :
    clickQuiescent initCall
        [CallEvent.click, CallEvent.openEvt 0, CallEvent.click,
         CallEvent.closeEvt 0, CallEvent.click] = true ∧
    activeCount (runCall
        [CallEvent.click, CallEvent.openEvt 0, CallEvent.click,
         CallEvent.closeEvt 0, CallEvent.click]) ≤ 1 :=
  ⟨by decide,
   C1_at_most_one_active
     [CallEvent.click, CallEvent.openEvt 0, CallEvent.click,
      CallEvent.closeEvt 0, CallEvent.click] (by decide)⟩

/-- Helper: a complete toggle from an idle state brings the call up. -/
theorem toggle_of_idle (s : CallState) (h : CallIdle s) : CallLive (toggle s) := by
  obtain ⟨hl, hc⟩ := h
  unfold toggle stepCall
  match hcs : s.conns with
  | [] => simp [CallLive, TailClosed]
  | c :: t =>
      have hcl : c = ReadyState.closed := hc c (by simp [hcs])
      subst hcl
      refine ⟨rfl, by simp, ?_⟩
      intro a hat
      simp at hat
      rcases hat with rfl | hmem
      · rfl
      · exact hc a (by simp [hcs, hmem])

/-- Helper: a complete toggle from a live call tears it down. -/
theorem toggle_of_live (s : CallState) (h : CallLive s) : CallIdle (toggle s) := by
  obtain ⟨hl, hh, ht⟩ := h
  match hcs : s.conns with
  | [] => simp [hcs] at hh
  | c :: t =>
      have hc : c = ReadyState.opened := by simpa [hcs] using hh
      subst hc
      unfold toggle stepCall
      refine ⟨by simp [hcs], ?_⟩
      intro a hat
      simp [hcs] at hat
      rcases hat with rfl | hmem
      · rfl
      · exact ht a (by simp [hcs, hmem])

/-- Helper: after an even number of complete toggles the controller is
idle, after an odd number a call is live. -/
theorem toggles_phase (n : Nat) :
    (n % 2 = 0 ∧ CallIdle (toggles n)) ∨ (n % 2 = 1 ∧ CallLive (toggles n)) := by
  induction n with
  | zero =>
      refine Or.inl ⟨rfl, rfl, ?_⟩
      intro c hmem
      simp [toggles, initCall] at hmem
  | succ k ih =>
      rcases ih with ⟨hk, hidle⟩ | ⟨hk, hlive⟩
      · exact Or.inr ⟨by omega, toggle_of_idle _ hidle⟩
      · exact Or.inl ⟨by omega, toggle_of_live _ hlive⟩

/-- C2: across any number of complete toggle actions the label is the
idle glyph after an even number of toggles and the "end call" label
after an odd number (so consecutive labels strictly alternate), and at
every point the label reads "end call" exactly when the tracked
connection is open. -/
theorem C2_label_alternates (n : Nat) :
    ((toggles n).label = if n % 2 = 1 then endLabel else idleLabel) ∧
    ((toggles n).label = endLabel ↔ trackedOpen (toggles n) = true) ∧
    (toggles (n + 1)).label ≠ (toggles n).label := by
  have phase := toggles_phase n
  have phaseS := toggles_phase (n + 1)
  have hne : endLabel ≠ idleLabel := by decide
  rcases phase with ⟨hk, hl, hc⟩ | ⟨hk, hl, hh, ht⟩
  · have hodd : ¬ n % 2 = 1 := by omega
    refine ⟨by simp [hl, hodd], ?_, ?_⟩
    · constructor
      · intro habs
        exact absurd (hl.symm.trans habs) hne.symm
      · intro habs
        unfold trackedOpen at habs
        match hcs : (toggles n).conns with
        | [] => simp [hcs] at habs
        | c :: t =>
            have : c = ReadyState.closed := hc c (by simp [hcs])
            subst this
            simp [hcs] at habs
    · rcases phaseS with ⟨hk2, _⟩ | ⟨hk2, hl2, _⟩
      · omega
      · simp [hl2, hl, hne]
  · have hodd : n % 2 = 1 := hk
    refine ⟨by simp [hl, hodd], ?_, ?_⟩
    · simp [hl, trackedOpen, hh]
    · rcases phaseS with ⟨hk2, hl2, _⟩ | ⟨hk2, _⟩
      · simp [hl2, hl, hne.symm]
      · omega

/-- C4: a parsed reply "Hello" is rendered verbatim; an empty object
(no `reply` field) yields the fixed placeholder text. -/
theorem C4_reply_and_placeholder :
    (send "hi" (ChatResponse.response 200 (ChatBody.json (some "Hello")))).appended
      = [⟨Sender.user, "hi"⟩, ⟨Sender.flossy, "Hello"⟩] ∧
    (send "hi" (ChatResponse.response 200 (ChatBody.json none))).appended
      = [⟨Sender.user, "hi"⟩, ⟨Sender.flossy, placeholderText⟩] := by
  constructor <;> rfl

/-- C6: an input that trims to the empty string appends nothing and
issues no request. -/
theorem C6_empty_input_noop (input : String) (resp : ChatResponse)
    (h : jsTrim input = "") :
    (send input resp).appended = [] ∧ (send input resp).requestCount = 0 := by
  unfold send
  simp [h]

/-- Witness for C6 at the whitespace-only input "   ". -/
theorem C6_empty_input_noop_witness :
    (send "   " ChatResponse.networkError).appended = [] ∧
    (send "   " ChatResponse.networkError).requestCount = 0 :=
  C6_empty_input_noop "   " ChatResponse.networkError (by decide)

/-- C10: a `reply` field that is present but equal to the empty string
is falsy in `data.reply || ...`, so the placeholder is appended, not
the empty string. -/
theorem C10_empty_reply_placeholder (input : String) (status : Nat)
    (h : jsTrim input ≠ "") :
    (send input (ChatResponse.response status (ChatBody.json (some "")))).appended
      = [⟨Sender.user, jsTrim input⟩, ⟨Sender.flossy, placeholderText⟩] ∧
    placeholderText ≠ "" := by
  refine ⟨?_, by decide⟩
  unfold send
  simp [h, strOr]

/-- C3 counterexample: a non-2xx response (status 500) whose body
parses as JSON with no `reply` field is NOT treated as failure: the
handler appends the reply-derived placeholder message, not the fixed
error message, because the HTTP status is never checked. -/
theorem C3_counterexample :
    (send "hi" (ChatResponse.response 500 (ChatBody.json none))).appended
      = [⟨Sender.user, "hi"⟩, ⟨Sender.flossy, placeholderText⟩] ∧
    placeholderText ≠ errorText := by
  constructor
  · rfl
  · decide

/-- C3 amended: for every send whose fetch rejects with a network
error, and every send whose response body fails to parse as JSON
(whatever its status), the fixed error message is appended after the
user entry, no reply-derived message is appended, and exactly one
request is issued (no retry).  Non-2xx responses with parseable JSON
bodies take the success path instead. -/
theorem C3_failure_fixed_error (input : String) (status : Nat)
    (h : jsTrim input ≠ "") :
    (send input ChatResponse.networkError).appended
      = [⟨Sender.user, jsTrim input⟩, ⟨Sender.flossy, errorText⟩] ∧
    (send input ChatResponse.networkError).requestCount = 1 ∧
    (send input (ChatResponse.response status ChatBody.malformed)).appended
      = [⟨Sender.user, jsTrim input⟩, ⟨Sender.flossy, errorText⟩] ∧
    (send input (ChatResponse.response status ChatBody.malformed)).requestCount = 1 := by
  unfold send
  simp [h]

/-- Witness for C3 amended at input "hi", status 500. -/
theorem C3_failure_fixed_error_witness :
    (send "hi" ChatResponse.networkError).appended
      = [⟨Sender.user, "hi"⟩, ⟨Sender.flossy, errorText⟩] ∧
    (send "hi" ChatResponse.networkError).requestCount = 1 ∧
    (send "hi" (ChatResponse.response 500 ChatBody.malformed)).appended
      = [⟨Sender.user, "hi"⟩, ⟨Sender.flossy, errorText⟩] ∧
    (send "hi" (ChatResponse.response 500 ChatBody.malformed)).requestCount = 1 :=
  C3_failure_fixed_error "hi" 500 (by decide)

/-- C5: for every input that is non-empty after trimming and every
fetch outcome, exactly one user entry (carrying the trimmed input) is
appended, followed by exactly one flossy entry and nothing else; on
the failure path the second entry is the fixed error message. -/
theorem C5_two_entries_in_order (input : String) (resp : ChatResponse)
    (h : jsTrim input ≠ "") :
    ∃ t : String,
      (send input resp).appended
        = [⟨Sender.user, jsTrim input⟩, ⟨Sender.flossy, t⟩] ∧
      (isChatFailure resp = true → t = errorText) := by
  unfold send isChatFailure
  match resp with
  | .networkError => exact ⟨errorText, by simp [h], fun _ => rfl⟩
  | .response st .malformed => exact ⟨errorText, by simp [h], fun _ => rfl⟩
  | .response st (.json r) =>
      exact ⟨strOr r placeholderText, by simp [h], by simp⟩

/-- Witness for C5 at input " hi " and a successful reply "ok". -/
theorem C5_two_entries_in_order_witness :
    ∃ t : String,
      (send " hi " (ChatResponse.response 200 (ChatBody.json (some "ok")))).appended
        = [⟨Sender.user, jsTrim " hi "⟩, ⟨Sender.flossy, t⟩] ∧
      (isChatFailure (ChatResponse.response 200 (ChatBody.json (some "ok"))) = true →
        t = errorText) :=
  C5_two_entries_in_order " hi " (ChatResponse.response 200 (ChatBody.json (some "ok")))
    (by decide)

/-- Witness for C10 at input "hi", status 200. -/
theorem C10_empty_reply_placeholder_witness :
    (send "hi" (ChatResponse.response 200 (ChatBody.json (some "")))).appended
      = [⟨Sender.user, "hi"⟩, ⟨Sender.flossy, placeholderText⟩] ∧
    placeholderText ≠ "" :=
  C10_empty_reply_placeholder "hi" 200 (by decide)

/-- C7: the displayed title and body prefer the `notification` field,
fall back to the `data` field, then to the fixed defaults; in
particular the two payloads named in the spec render as stated, and an
empty payload renders both defaults. -/
theorem C7_title_body_preference :
    (onBackgroundMessage
        ⟨some ⟨some "Reminder", some "Brush your teeth", none⟩, none⟩).title
      = "Reminder" ∧
    (onBackgroundMessage
        ⟨some ⟨some "Reminder", some "Brush your teeth", none⟩, none⟩).body
      = "Brush your teeth" ∧
    (onBackgroundMessage ⟨none, some ⟨some "T", none, none, none, none⟩⟩).title
      = "T" ∧
    (onBackgroundMessage ⟨none, some ⟨some "T", none, none, none, none⟩⟩).body
      = defaultBody ∧
    (onBackgroundMessage ⟨none, none⟩).title = defaultTitle ∧
    (onBackgroundMessage ⟨none, none⟩).body = defaultBody :=
  ⟨rfl, rfl, rfl, rfl, rfl, rfl⟩

/-- Helper: `data.url || "/"` is never the empty string. -/
theorem strOr_slash_ne_empty (x : Option String) : strOr x "/" ≠ "" := by
  cases x with
  | none => simp [strOr]
  | some u => by_cases hu : u = "" <;> simp [strOr, hu]

/-- Helper: the stored click-through URL is the payload-supplied
`data.url` passed through JS `|| "/"`. -/
theorem onBackgroundMessage_url (p : PushPayload) :
    (onBackgroundMessage p).url = strOr (suppliedUrl p) "/" := by
  cases hd : p.dataField <;> simp [onBackgroundMessage, suppliedUrl, hd]

/-- Helper: whenever the click can be acted on at all (some client
exposes `focus`, or `clients.openWindow` exists), the action's target
is exactly the URL stored in the shown notification. -/
theorem clickShown_url (p : PushPayload) (clientList : List WClient) (avail : Bool)
    (hact : clientList.any (fun c => c.focusable) = true ∨ avail = true) :
    actionUrl (clickShown p clientList avail)
      = some (onBackgroundMessage p).url := by
  have hU : urlTruthy (some (onBackgroundMessage p).url) = true := by
    rw [onBackgroundMessage_url]
    simpa [urlTruthy] using strOr_slash_ne_empty (suppliedUrl p)
  unfold clickShown notificationClick
  cases hf : clientList.findIdx? (fun c => c.focusable) with
  | some i => simp [hf, actionUrl, hU]
  | none =>
      have hav : avail = true := by
        rcases hact with hany | hav
        · exfalso
          rcases List.any_eq_true.mp hany with ⟨c, hc, hcf⟩
          have hall := List.findIdx?_eq_none_iff.mp hf
          have := hall c hc
          simp [hcf] at this
        · exact hav
      subst hav
      simp [hf, hU, actionUrl]

/-- C8: once the notification for payload `p` is shown, clicking it
(with a focusable client present or `clients.openWindow` available)
navigates or focuses a page to the payload-supplied `data.url`; when
the payload supplied no URL (or the falsy empty string), the target is
the site root "/". -/
theorem C8_click_navigates (p : PushPayload) (clientList : List WClient)
    (avail : Bool)
    (hact : clientList.any (fun c => c.focusable) = true ∨ avail = true) :
    (∀ u, suppliedUrl p = some u → u ≠ "" →
        actionUrl (clickShown p clientList avail) = some u) ∧
    ((suppliedUrl p = none ∨ suppliedUrl p = some "") →
        actionUrl (clickShown p clientList avail) = some "/") := by
  have hmain := clickShown_url p clientList avail hact
  rw [onBackgroundMessage_url] at hmain
  constructor
  · intro u hsu hu
    rw [hmain, hsu]
    simp [strOr, hu]
  · intro hsu
    rcases hsu with hsu | hsu <;> rw [hmain, hsu] <;> simp [strOr]

/-- Witness for C8: a payload with `data.url = "/brush"`, one
focusable client, `openWindow` unavailable. -/
theorem C8_click_navigates_witness :
    (∀ u,
        suppliedUrl ⟨none, some ⟨none, none, none, none, some "/brush"⟩⟩ = some u →
        u ≠ "" →
        actionUrl (clickShown ⟨none, some ⟨none, none, none, none, some "/brush"⟩⟩
            [⟨true⟩] false) = some u) ∧
    ((suppliedUrl ⟨none, some ⟨none, none, none, none, some "/brush"⟩⟩ = none ∨
        suppliedUrl ⟨none, some ⟨none, none, none, none, some "/brush"⟩⟩ = some "") →
      actionUrl (clickShown ⟨none, some ⟨none, none, none, none, some "/brush"⟩⟩
          [⟨true⟩] false) = some "/") :=
  C8_click_navigates ⟨none, some ⟨none, none, none, none, some "/brush"⟩⟩
    [⟨true⟩] false (Or.inl (by decide))

/-- C9 counterexample: when permission is granted and the token
request fails, the handler's only effect is `console.error` — no alert
is shown, so nothing is surfaced to the user. -/
theorem C9_counterexample :
    surfacedToUser (requestEnable Permission.granted TokenResult.err) = false := by
  decide

/-- C9 amended: when permission is granted and the token request
fails, a generic error is written to the developer console only; the
user-visible alert channel — used on success and on denial — stays
silent. -/
theorem C9_token_failure_console_only :
    requestEnable Permission.granted TokenResult.err
      = [Effect.consoleError "Error enabling notifications:"] ∧
    surfacedToUser (requestEnable Permission.granted TokenResult.err) = false ∧
    surfacedToUser (requestEnable Permission.granted (TokenResult.ok "tok")) = true ∧
    surfacedToUser (requestEnable Permission.denied TokenResult.err) = true := by
  decide

end Flossy
